import Mathlib

/-!
# Verification of the Ecommerce-Backend checkout / inventory workflow

This file gives a shallow embedding of the TypeScript route handlers of the
`Ecommerce-Backend` repository (Express + Prisma) and proves the testable
properties of its specification against them.

The persistent store is modelled as an explicit `DB` record of entity lists;
each Prisma call becomes a pure list operation on the `DB` value, and each
controller becomes a function that threads the `DB` through the store
operations it performs, in source order.  Handlers that can throw return
`Except (AppError × DB) …`: the `DB` paired with the error is the store as it
stands at the moment of the throw (the real handlers funnel thrown errors to
the global `errorHandler`, which only shapes the HTTP response).  Machine
numbers (prices, stocks, quantities — `number` in TypeScript) are modelled as
`Int`; record ids as `Nat`.
-/

namespace Ecommerce

/-- HTTP-level application error, as produced by the error classes of
`middleware/errorHandler.ts` (`AppError` carries a `statusCode` and a
`message`). -/
structure AppError where
  statusCode : Nat
  message : String
  deriving Repr, DecidableEq

/-- `ValidationError` from `middleware/errorHandler.ts`: status code 400. -/
def validationError (msg : String) : AppError := ⟨400, msg⟩

/-- `NotFoundError` from `middleware/errorHandler.ts`: status code 404. -/
def notFoundError (msg : String) : AppError := ⟨404, msg⟩

/-- `Order.status` enum of the Prisma schema. -/
inductive OrderStatus
  | PENDING
  | PROCESSING
  | SHIPPED
  | DELIVERED
  | CANCELLED
  deriving Repr, DecidableEq

/-- `Order.paymentStatus` enum of the Prisma schema. -/
inductive PaymentStatus
  | PENDING
  | PAID
  | FAILED
  | REFUNDED
  deriving Repr, DecidableEq

/-- A `Product` row: id, name, price, stock, optional category reference,
description and image list. -/
structure Product where
  id : Nat
  name : String
  price : Int
  stock : Int
  categoryId : Option Nat
  description : String
  images : List String
  deriving Repr, DecidableEq

/-- A `Category` row. -/
structure Category where
  id : Nat
  name : String
  deriving Repr, DecidableEq

/-- A `Cart` row: one per user (`userId` unique). -/
structure Cart where
  id : Nat
  userId : Nat
  deriving Repr, DecidableEq

/-- A `CartItem` row: belongs to a cart, references a product. -/
structure CartItem where
  id : Nat
  cartId : Nat
  productId : Nat
  quantity : Int
  deriving Repr, DecidableEq

/-- An `Order` row. -/
structure Order where
  id : Nat
  userId : Nat
  total : Int
  shippingAddress : String
  paymentMethod : String
  status : OrderStatus
  paymentStatus : PaymentStatus
  deriving Repr, DecidableEq

/-- An `OrderItem` row: belongs to an order, carries the snapshot
`(productId, quantity, price)` taken at checkout time. -/
structure OrderItem where
  orderId : Nat
  productId : Nat
  quantity : Int
  price : Int
  deriving Repr, DecidableEq

/-- The relational store.  The `next…Id` counters model the id generator of
the database (every freshly inserted row receives the current counter as its
id). -/
structure DB where
  products : List Product
  categories : List Category
  carts : List Cart
  cartItems : List CartItem
  orders : List Order
  orderItems : List OrderItem
  nextCartId : Nat
  nextCartItemId : Nat
  nextOrderId : Nat
  deriving Repr, DecidableEq

/-- `prisma.product.findUnique({ where: { id } })`. -/
def findProduct (db : DB) (productId : Nat) : Option Product :=
  db.products.find? (fun p => p.id == productId)

/-- The items of one cart (the `items` relation included by
`prisma.cart.findUnique`). -/
def cartItemsOf (db : DB) (cartId : Nat) : List CartItem :=
  db.cartItems.filter (fun i => i.cartId == cartId)

/-- The items of one order (the `items` relation included by
`prisma.order.findUnique`). -/
def orderItemsOf (db : DB) (orderId : Nat) : List OrderItem :=
  db.orderItems.filter (fun i => i.orderId == orderId)

/-- The `include: { product: true }` join on cart items.  In the database the
`productId` foreign key always resolves, so the join yields `some`; a
dangling reference yields `none` and the handlers below translate it into a
500 error (unreachable under referential integrity). -/
def attachProducts (db : DB) (items : List CartItem) :
    Option (List (CartItem × Product)) :=
  items.mapM (fun i => (findProduct db i.productId).map (fun p => (i, p)))

/-- A relative stock adjustment:
`prisma.product.update({ where: { id }, data: { stock: { increment/decrement } } })`
with `delta` positive for `increment` and negative for `decrement`. -/
def adjustStock (db : DB) (productId : Nat) (delta : Int) : DB :=
  { db with
    products := db.products.map (fun p =>
      if p.id == productId then { p with stock := p.stock + delta } else p) }

/-- The first cart item whose quantity exceeds its product's stock — the
first iteration of the STEP 2 loop of `createOrder` that throws
(`if (item.product.stock < item.quantity) throw …`). -/
def firstStockViolation : List (CartItem × Product) → Option (CartItem × Product)
  | [] => none
  | ip :: rest =>
      if ip.2.stock < ip.1.quantity then some ip else firstStockViolation rest

/-- The insufficient-stock message of `createOrder`
(`orderControllers.ts` line 38). -/
def insufficientStockMsg (p : Product) (i : CartItem) : String :=
  p.name ++ " only has " ++ toString p.stock ++
    " items in stock. You tried to order " ++ toString i.quantity ++ "."

/-- The empty-cart message of `createOrder` (`orderControllers.ts` line 31). -/
def emptyCartMsg : String := "Cart is empty. Add items before checkout."

/-- `createOrder` (`orderControllers.ts` lines 8–110), the checkout workflow:
load the cart with items and product snapshots, reject an absent or empty
cart, reject the first item whose quantity exceeds its product's stock,
compute the total, then (inside `prisma.$transaction`) create the order with
one `OrderItem` per cart item, decrement each product's stock, and delete the
cart's items. -/
def createOrder (db : DB) (userId : Nat) (shippingAddress paymentMethod : String) :
    Except (AppError × DB) (DB × Order) :=
  match db.carts.find? (fun c => c.userId == userId) with
  | none => .error (validationError emptyCartMsg, db)
  | some cart =>
    let items := cartItemsOf db cart.id
    if items.isEmpty then
      .error (validationError emptyCartMsg, db)
    else
      match attachProducts db items with
      | none => .error (⟨500, "Database error occurred"⟩, db)
      | some ips =>
        match firstStockViolation ips with
        | some ip => .error (validationError (insufficientStockMsg ip.2 ip.1), db)
        | none =>
          let total := ips.foldl (fun s ip => s + ip.2.price * ip.1.quantity) 0
          let order : Order :=
            { id := db.nextOrderId, userId := userId, total := total,
              shippingAddress := shippingAddress, paymentMethod := paymentMethod,
              status := .PENDING, paymentStatus := .PENDING }
          let newItems := ips.map (fun ip =>
            { orderId := db.nextOrderId, productId := ip.1.productId,
              quantity := ip.1.quantity, price := ip.2.price : OrderItem })
          let db1 : DB :=
            { db with
              orders := db.orders ++ [order],
              orderItems := db.orderItems ++ newItems,
              nextOrderId := db.nextOrderId + 1 }
          let db2 := ips.foldl
            (fun d ip => adjustStock d ip.1.productId (-ip.1.quantity)) db1
          let db3 : DB :=
            { db2 with cartItems := db2.cartItems.filter (fun i => !(i.cartId == cart.id)) }
          .ok (db3, order)

/-- The order row written by the `prisma.$transaction` block of `createOrder`
(lines 52–80), given the joined cart items `ips` read in STEP 1. -/
def checkoutOrder (db : DB) (userId : Nat) (shippingAddress paymentMethod : String)
    (ips : List (CartItem × Product)) : Order :=
  { id := db.nextOrderId, userId := userId,
    total := ips.foldl (fun s ip => s + ip.2.price * ip.1.quantity) 0,
    shippingAddress := shippingAddress, paymentMethod := paymentMethod,
    status := .PENDING, paymentStatus := .PENDING }

/-- The store committed by the `prisma.$transaction` block of `createOrder`
(lines 50–100): order and order items inserted, stocks decremented, cart
items of `cartId` deleted. -/
def checkoutDb (db : DB) (userId : Nat) (shippingAddress paymentMethod : String)
    (cartId : Nat) (ips : List (CartItem × Product)) : DB :=
  let order := checkoutOrder db userId shippingAddress paymentMethod ips
  let newItems := ips.map (fun ip =>
    { orderId := db.nextOrderId, productId := ip.1.productId,
      quantity := ip.1.quantity, price := ip.2.price : OrderItem })
  let db1 : DB :=
    { db with
      orders := db.orders ++ [order],
      orderItems := db.orderItems ++ newItems,
      nextOrderId := db.nextOrderId + 1 }
  let db2 := ips.foldl (fun d ip => adjustStock d ip.1.productId (-ip.1.quantity)) db1
  { db2 with cartItems := db2.cartItems.filter (fun i => !(i.cartId == cartId)) }

/-- `cancelOrder` (`orderControllers.ts` lines 228–302): look the order up,
check ownership, reject SHIPPED/DELIVERED and already-CANCELLED orders, then
(inside `prisma.$transaction`) set the status to CANCELLED and increment each
item's product stock by the item's quantity. -/
def cancelOrder (db : DB) (userId : Nat) (orderId : Nat) :
    Except (AppError × DB) (DB × Order) :=
  match db.orders.find? (fun o => o.id == orderId) with
  | none => .error (notFoundError "Order not found", db)
  | some order =>
    if order.userId != userId then
      .error (validationError "You can only cancel your own orders", db)
    else if order.status == .SHIPPED || order.status == .DELIVERED then
      .error (validationError "Cannot cancel order that is already shipped or delivered", db)
    else if order.status == .CANCELLED then
      .error (validationError "Order is already cancelled", db)
    else
      let db1 : DB :=
        { db with
          orders := db.orders.map (fun o =>
            if o.id == orderId then { o with status := .CANCELLED } else o) }
      let db2 := (orderItemsOf db orderId).foldl
        (fun d it => adjustStock d it.productId it.quantity) db1
      .ok (db2, { order with status := .CANCELLED })

/-- `updateOrderStatus` (`orderControllers.ts` lines 374–414), the admin
status transition: an unconditional write of the `status` field of one
order. -/
def updateOrderStatus (db : DB) (orderId : Nat) (status : OrderStatus) :
    Except (AppError × DB) (DB × Order) :=
  match db.orders.find? (fun o => o.id == orderId) with
  | none => .error (notFoundError "Order not found", db)
  | some order =>
    .ok ({ db with
            orders := db.orders.map (fun o =>
              if o.id == orderId then { o with status := status } else o) },
         { order with status := status })

/-- `addToCart` (`cartControllers` lines 79–166): check the product exists
and the requested quantity is in stock, find or lazily create the user's
cart, then either merge into an existing `(cartId, productId)` row —
re-validating the combined quantity against the product's stock — or insert a
new row.  Note the lazy cart creation commits before a merge-overflow throw,
so the error carries the store including the freshly created cart. -/
def addToCart (db : DB) (userId : Nat) (productId : Nat) (quantity : Int) :
    Except (AppError × DB) (DB × CartItem) :=
  match findProduct db productId with
  | none => .error (notFoundError "Product not found", db)
  | some product =>
    if product.stock < quantity then
      .error (validationError
        ("Only " ++ toString product.stock ++ " items available in stock"), db)
    else
      let found := db.carts.find? (fun c => c.userId == userId)
      let cart : Cart := match found with
        | some c => c
        | none => { id := db.nextCartId, userId := userId }
      let db1 : DB := match found with
        | some _ => db
        | none => { db with carts := db.carts ++ [cart], nextCartId := db.nextCartId + 1 }
      match db1.cartItems.find? (fun i => i.cartId == cart.id && i.productId == productId) with
      | some existing =>
        let newQuantity := existing.quantity + quantity
        if product.stock < newQuantity then
          .error (validationError
            ("Cannot add " ++ toString quantity ++ " more. Only " ++
              toString (product.stock - existing.quantity) ++ " items available"), db1)
        else
          .ok ({ db1 with
                  cartItems := db1.cartItems.map (fun i =>
                    if i.id == existing.id then { i with quantity := newQuantity } else i) },
               { existing with quantity := newQuantity })
      | none =>
        let newItem : CartItem :=
          { id := db1.nextCartItemId, cartId := cart.id,
            productId := productId, quantity := quantity }
        .ok ({ db1 with
                cartItems := db1.cartItems ++ [newItem],
                nextCartItemId := db1.nextCartItemId + 1 },
             newItem)

/-- `updateCartItem` (`cartControllers` lines 171–222): find the item (with
its cart and product included), check ownership, check the requested quantity
against stock, then write the item's quantity. -/
def updateCartItem (db : DB) (userId : Nat) (itemId : Nat) (quantity : Int) :
    Except (AppError × DB) (DB × CartItem) :=
  match db.cartItems.find? (fun i => i.id == itemId) with
  | none => .error (notFoundError "Cart item not found", db)
  | some item =>
    match db.carts.find? (fun c => c.id == item.cartId) with
    | none => .error (⟨500, "Database error occurred"⟩, db)
    | some cart =>
      if cart.userId != userId then
        .error (validationError "This cart item does not belong to you", db)
      else
        match findProduct db item.productId with
        | none => .error (⟨500, "Database error occurred"⟩, db)
        | some product =>
          if product.stock < quantity then
            .error (validationError
              ("Only " ++ toString product.stock ++ " items available in stock"), db)
          else
            .ok ({ db with
                    cartItems := db.cartItems.map (fun i =>
                      if i.id == itemId then { i with quantity := quantity } else i) },
                 { item with quantity := quantity })

/-- `removeFromCart` (`cartControllers` lines 227–264): find the item (with
its cart included), check ownership, delete the row. -/
def removeFromCart (db : DB) (userId : Nat) (itemId : Nat) :
    Except (AppError × DB) DB :=
  match db.cartItems.find? (fun i => i.id == itemId) with
  | none => .error (notFoundError "Cart item not found", db)
  | some item =>
    match db.carts.find? (fun c => c.id == item.cartId) with
    | none => .error (⟨500, "Database error occurred"⟩, db)
    | some cart =>
      if cart.userId != userId then
        .error (validationError "This cart item does not belong to you", db)
      else
        .ok { db with cartItems := db.cartItems.filter (fun i => !(i.id == itemId)) }

/-- `clearCart` (`cartControllers` lines 269–298): delete every item of the
user's cart. -/
def clearCart (db : DB) (userId : Nat) : Except (AppError × DB) DB :=
  match db.carts.find? (fun c => c.userId == userId) with
  | none => .error (notFoundError "Cart not found", db)
  | some cart =>
    .ok { db with cartItems := db.cartItems.filter (fun i => !(i.cartId == cart.id)) }

/-- The optional fields of a `PUT /products/:id` body, as spread into the
Prisma `data` object by `updateProduct` (`productControllers.ts` lines
135–142).  `none` stands for a field that is absent — or, for the
truthiness-guarded fields (`name`, `price`, `description`, `categoryId`,
`images`), falsy — in the request body. -/
structure ProductUpdate where
  name : Option String
  price : Option Int
  description : Option String
  stock : Option Int
  categoryId : Option Nat
  images : Option (List String)
  deriving Repr, DecidableEq

/-- Apply a `ProductUpdate` to one product row. -/
def applyProductUpdate (p : Product) (u : ProductUpdate) : Product :=
  { p with
    name := u.name.getD p.name,
    price := u.price.getD p.price,
    description := u.description.getD p.description,
    stock := u.stock.getD p.stock,
    categoryId := match u.categoryId with | some c => some c | none => p.categoryId,
    images := u.images.getD p.images }

/-- `updateProduct` (`productControllers.ts` lines 127–154): a single
`prisma.product.update`; a missing id makes Prisma throw, which the
controller's catch turns into a 500 response. -/
def updateProduct (db : DB) (productId : Nat) (u : ProductUpdate) :
    Except (AppError × DB) (DB × Product) :=
  match findProduct db productId with
  | none => .error (⟨500, "Failed to update product"⟩, db)
  | some p =>
    .ok ({ db with
            products := db.products.map (fun q =>
              if q.id == productId then applyProductUpdate q u else q) },
         applyProductUpdate p u)

/-- `deleteCategory` (`categoryControllers.ts` lines 188–224): 404 when the
category does not exist, a 400 response while any product still references
it, deletion otherwise. -/
def deleteCategory (db : DB) (categoryId : Nat) : Except (AppError × DB) DB :=
  match db.categories.find? (fun c => c.id == categoryId) with
  | none => .error (notFoundError "Category not found", db)
  | some _ =>
    let productCount := (db.products.filter (fun p => p.categoryId == some categoryId)).length
    if productCount > 0 then
      .error (⟨400, "Cannot delete category with " ++ toString productCount ++
                " products. Remove products first."⟩, db)
    else
      .ok { db with categories := db.categories.filter (fun c => !(c.id == categoryId)) }

/-- The query parameters of `GET /products` that reach the `where` builder of
`getProducts` (`productControllers.ts` lines 8–36).  Pagination and sorting
parameters are applied after the `where` clause and are not modelled. -/
structure ProductQuery where
  category : Option Nat
  minPrice : Option Int
  maxPrice : Option Int
  search : Option String
  deriving Repr, DecidableEq

/-- The `where` object that `getProducts` passes to `prisma.product.findMany`
on the paths that reach it.  No price constraint ever appears in it: see
`buildProductWhere`. -/
structure ProductWhere where
  categoryId : Option Nat
  nameContains : Option String
  deriving Repr, DecidableEq

/-- Case-insensitive substring test (`contains` with `mode: 'insensitive'`). -/
def containsInsensitive (hay needle : String) : Bool :=
  needle.isEmpty || (hay.toLower.splitOn needle.toLower).length ≥ 2

/-- The `where` builder of `getProducts` (`productControllers.ts` lines
19–36).  When `minPrice` or `maxPrice` is present the source initialises
`where.price = {}` but then assigns `where.minPrice.gte = …` resp.
`where.maxPrice.gte = …`: `where.minPrice` and `where.maxPrice` are
`undefined`, so the assignment throws a `TypeError` before any query runs.
The builder therefore fails whenever a price bound is given, and on the
successful paths the `where` object never carries a price constraint. -/
def buildProductWhere (q : ProductQuery) : Except String ProductWhere :=
  if q.minPrice.isSome || q.maxPrice.isSome then
    .error "TypeError: Cannot set properties of undefined (setting gte)"
  else
    .ok { categoryId := q.category, nameContains := q.search }

/-- Whether a product row matches a `ProductWhere`. -/
def matchesWhere (w : ProductWhere) (p : Product) : Bool :=
  (match w.categoryId with
   | some c => p.categoryId == some c
   | none => true)
  && (match w.nameContains with
      | some s => containsInsensitive p.name s
      | none => true)

/-- `getProducts` (`productControllers.ts` lines 6–70) up to pagination and
sorting: the HTTP status and the filtered product list.  A thrown
`TypeError` from the `where` builder lands in the controller's catch block,
which answers 500 with no products. -/
def getProducts (db : DB) (q : ProductQuery) : Nat × List Product :=
  match buildProductWhere q with
  | .error _ => (500, [])
  | .ok w => (200, db.products.filter (fun p => matchesWhere w p))

/-- The named steps of the checkout algorithm of the specification, as they
appear in `createOrder`. -/
inductive CheckoutStep
  | loadCart
  | validateStock
  | computeTotal
  | createOrderRow
  | decrementStock
  | clearCartItems
  deriving Repr, DecidableEq

/-- Which checkout steps execute inside the `prisma.$transaction` callback of
`createOrder`: the cart load (line 18), the stock validation loop (lines
35–41) and the total computation (lines 44–46) run before the transaction
opens at line 50; the order creation (line 52), the stock decrements (lines
83–92) and the cart clearing (line 95) run inside it. -/
def checkoutStepInTransaction : CheckoutStep → Bool
  | .loadCart => false
  | .validateStock => false
  | .computeTotal => false
  | .createOrderRow => true
  | .decrementStock => true
  | .clearCartItems => true

/-- One cart-mutating request, for stating invariants over request
sequences. -/
inductive CartOp
  | add (userId productId : Nat) (quantity : Int)
  | update (userId itemId : Nat) (quantity : Int)
  | remove (userId itemId : Nat)
  | clear (userId : Nat)
  deriving Repr, DecidableEq

/-- The store after one cart request, whether it succeeded or threw (a
thrown request leaves the store as it was at the throw). -/
def cartOpResult (db : DB) : CartOp → DB
  | .add userId productId quantity =>
      match addToCart db userId productId quantity with
      | .ok (d, _) => d
      | .error (_, d) => d
  | .update userId itemId quantity =>
      match updateCartItem db userId itemId quantity with
      | .ok (d, _) => d
      | .error (_, d) => d
  | .remove userId itemId =>
      match removeFromCart db userId itemId with
      | .ok d => d
      | .error (_, d) => d
  | .clear userId =>
      match clearCart db userId with
      | .ok d => d
      | .error (_, d) => d

/-- The store after a sequence of cart requests. -/
def applyCartOps (db : DB) (ops : List CartOp) : DB :=
  ops.foldl cartOpResult db

/-- The cart-item invariant maintained by the cart service: row ids are
below the id counter and pairwise distinct, and no two rows share a
`(cartId, productId)` key — each cart holds at most one row per product. -/
structure CartInvariant (db : DB) : Prop where
  idsBounded : ∀ i ∈ db.cartItems, i.id < db.nextCartItemId
  idsDistinct : db.cartItems.Pairwise (fun i j => i.id ≠ j.id)
  keyUnique : db.cartItems.Pairwise
    (fun i j => i.cartId ≠ j.cartId ∨ i.productId ≠ j.productId)

/-! ## Helper lemmas -/

/-- `find?` over a key-preserving map commutes with the map. -/
theorem find?_map_key {α κ : Type} [BEq κ] (key : α → κ) (g : α → α)
    (hg : ∀ a, key (g a) = key a) (L : List α) (k : κ) :
    (L.map g).find? (fun a => key a == k) = (L.find? (fun a => key a == k)).map g := by
  induction L with
  | nil => rfl
  | cons a t ih =>
    by_cases h : (key a == k) = true
    · simp [List.find?_cons_of_pos, h, hg]
    · have h' : (key (g a) == k) = false := by
        rw [hg]; exact Bool.not_eq_true _ ▸ (by simpa using h)
      simp only [List.map_cons]
      rw [List.find?_cons_of_neg _ (by simp [hg, h]),
          List.find?_cons_of_neg _ (by simpa using h)]
      exact ih

/-- Looking a product up after adjusting its own stock. -/
theorem findProduct_adjustStock_self (db : DB) (pid : Nat) (delta : Int) :
    findProduct (adjustStock db pid delta) pid =
      (findProduct db pid).map (fun p => { p with stock := p.stock + delta }) := by
  unfold findProduct adjustStock
  have h := find?_map_key (fun p : Product => p.id)
    (fun p => if p.id == pid then { p with stock := p.stock + delta } else p)
    (fun p => by by_cases h : (p.id == pid) = true <;> simp [h]) db.products pid
  simp only at h
  rw [h]
  cases hf : db.products.find? (fun p => p.id == pid) with
  | none => rfl
  | some p =>
    have hp : (p.id == pid) = true := by simpa using List.find?_some hf
    simp only [Option.map_some']
    rw [if_pos hp]

/-- Adjusting another product's stock does not change a lookup. -/
theorem findProduct_adjustStock_ne (db : DB) (qid pid : Nat) (delta : Int)
    (h : qid ≠ pid) :
    findProduct (adjustStock db qid delta) pid = findProduct db pid := by
  unfold findProduct adjustStock
  have hk := find?_map_key (fun p : Product => p.id)
    (fun p => if p.id == qid then { p with stock := p.stock + delta } else p)
    (fun p => by by_cases hq : (p.id == qid) = true <;> simp [hq]) db.products pid
  simp only at hk
  rw [hk]
  cases hf : db.products.find? (fun p => p.id == pid) with
  | none => rfl
  | some p =>
    have hp : p.id = pid := by simpa using List.find?_some hf
    have hne : (p.id == qid) = false := by
      simp only [beq_eq_false_iff_ne, hp]
      exact fun hq => h hq.symm
    simp only [Option.map_some']
    rw [if_neg (by simp [hne])]

/-- `adjustStock` changes only the `products` component. -/
theorem adjustStock_frame (db : DB) (pid : Nat) (delta : Int) :
    (adjustStock db pid delta).categories = db.categories ∧
    (adjustStock db pid delta).carts = db.carts ∧
    (adjustStock db pid delta).cartItems = db.cartItems ∧
    (adjustStock db pid delta).orders = db.orders ∧
    (adjustStock db pid delta).orderItems = db.orderItems ∧
    (adjustStock db pid delta).nextCartId = db.nextCartId ∧
    (adjustStock db pid delta).nextCartItemId = db.nextCartItemId ∧
    (adjustStock db pid delta).nextOrderId = db.nextOrderId :=
  ⟨rfl, rfl, rfl, rfl, rfl, rfl, rfl, rfl⟩

/-- A fold of stock adjustments changes only the `products` component. -/
theorem foldl_adjustStock_frame {α : Type} (pidOf : α → Nat) (dOf : α → Int)
    (L : List α) (db : DB) :
    (L.foldl (fun d a => adjustStock d (pidOf a) (dOf a)) db).categories = db.categories ∧
    (L.foldl (fun d a => adjustStock d (pidOf a) (dOf a)) db).carts = db.carts ∧
    (L.foldl (fun d a => adjustStock d (pidOf a) (dOf a)) db).cartItems = db.cartItems ∧
    (L.foldl (fun d a => adjustStock d (pidOf a) (dOf a)) db).orders = db.orders ∧
    (L.foldl (fun d a => adjustStock d (pidOf a) (dOf a)) db).orderItems = db.orderItems ∧
    (L.foldl (fun d a => adjustStock d (pidOf a) (dOf a)) db).nextCartId = db.nextCartId ∧
    (L.foldl (fun d a => adjustStock d (pidOf a) (dOf a)) db).nextCartItemId = db.nextCartItemId ∧
    (L.foldl (fun d a => adjustStock d (pidOf a) (dOf a)) db).nextOrderId = db.nextOrderId := by
  induction L generalizing db with
  | nil => exact ⟨rfl, rfl, rfl, rfl, rfl, rfl, rfl, rfl⟩
  | cons a t ih => simpa using ih (adjustStock db (pidOf a) (dOf a))

/-- A fold of stock adjustments that never touches `pid` leaves its lookup
unchanged. -/
theorem foldl_adjustStock_find_ne {α : Type} (pidOf : α → Nat) (dOf : α → Int)
    (L : List α) (db : DB) (pid : Nat) (h : ∀ a ∈ L, pidOf a ≠ pid) :
    findProduct (L.foldl (fun d a => adjustStock d (pidOf a) (dOf a)) db) pid =
      findProduct db pid := by
  induction L generalizing db with
  | nil => rfl
  | cons a t ih =>
    simp only [List.foldl_cons]
    rw [ih _ (fun b hb => h b (List.mem_cons_of_mem a hb)),
        findProduct_adjustStock_ne _ _ _ _ (h a (List.mem_cons_self a t))]

/-- A fold of stock adjustments over pairwise-distinct product ids adjusts
each mentioned product exactly once. -/
theorem foldl_adjustStock_find_mem {α : Type} (pidOf : α → Nat) (dOf : α → Int)
    (L : List α) (db : DB)
    (hdist : L.Pairwise (fun a b => pidOf a ≠ pidOf b)) (a : α) (ha : a ∈ L) :
    findProduct (L.foldl (fun d x => adjustStock d (pidOf x) (dOf x)) db) (pidOf a) =
      (findProduct db (pidOf a)).map (fun p => { p with stock := p.stock + dOf a }) := by
  induction L generalizing db with
  | nil => cases ha
  | cons x t ih =>
    rcases List.pairwise_cons.mp hdist with ⟨hx, ht⟩
    simp only [List.foldl_cons]
    rcases List.mem_cons.mp ha with rfl | hat
    · rw [foldl_adjustStock_find_ne _ _ _ _ _
        (fun b hb => (hx b hb).symm), findProduct_adjustStock_self]
    · rw [ih _ ht hat, findProduct_adjustStock_ne _ _ _ _ (hx a hat)]

/-- The STEP 2 loop of `createOrder` passes exactly when every cart item's
quantity is within its product's stock. -/
theorem firstStockViolation_eq_none (L : List (CartItem × Product)) :
    firstStockViolation L = none ↔ ∀ ip ∈ L, ip.1.quantity ≤ ip.2.stock := by
  induction L with
  | nil => simp [firstStockViolation]
  | cons ip t ih =>
    by_cases h : ip.2.stock < ip.1.quantity
    · simp [firstStockViolation, h, not_le.mpr h]
    · simp [firstStockViolation, h, ih, not_lt.mp h]

/-- Every pair produced by the product join consists of a cart item of the
input and its product row. -/
theorem attachProducts_mem (db : DB) (items : List CartItem)
    (ips : List (CartItem × Product)) (h : attachProducts db items = some ips) :
    ∀ ip ∈ ips, ip.1 ∈ items ∧ findProduct db ip.1.productId = some ip.2 := by
  induction items generalizing ips with
  | nil =>
    simp only [attachProducts, List.mapM_nil, Option.pure_def, Option.some.injEq] at h
    subst h; intro ip hip; cases hip
  | cons i t ih =>
    simp only [attachProducts, List.mapM_cons] at h
    cases hf : findProduct db i.productId with
    | none => rw [hf] at h; simp at h
    | some p =>
      rw [hf] at h
      cases ht : List.mapM (fun i => (findProduct db i.productId).map fun p => (i, p)) t with
      | none => rw [ht] at h; simp at h
      | some rest =>
        rw [ht] at h
        have h' : (i, p) :: rest = ips := by simpa using h
        subst h'
        intro ip hip
        rcases List.mem_cons.mp hip with rfl | hrest
        · exact ⟨List.mem_cons_self _ _, hf⟩
        · rcases ih rest ht ip hrest with ⟨h1, h2⟩
          exact ⟨List.mem_cons_of_mem _ h1, h2⟩

/-- The product join of an empty item list is the empty list. -/
theorem attachProducts_nil (db : DB) (ips : List (CartItem × Product))
    (h : attachProducts db [] = some ips) : ips = [] := by
  simp only [attachProducts, List.mapM_nil, Option.pure_def, Option.some.injEq] at h
  exact h.symm

/-- A hit of the STEP 2 loop is a cart item of the list whose quantity
strictly exceeds its product's stock. -/
theorem firstStockViolation_some (L : List (CartItem × Product))
    (ip : CartItem × Product) (h : firstStockViolation L = some ip) :
    ip ∈ L ∧ ip.2.stock < ip.1.quantity := by
  induction L with
  | nil => simp [firstStockViolation] at h
  | cons x t ih =>
    by_cases hx : x.2.stock < x.1.quantity
    · simp only [firstStockViolation, if_pos hx, Option.some.injEq] at h
      subst h
      exact ⟨List.mem_cons_self _ _, hx⟩
    · simp only [firstStockViolation, if_neg hx] at h
      rcases ih h with ⟨h1, h2⟩
      exact ⟨List.mem_cons_of_mem _ h1, h2⟩

/-- The running-total fold of `createOrder` computes the sum of
`quantity × price` over the cart. -/
theorem foldl_total (L : List (CartItem × Product)) (c : Int) :
    L.foldl (fun s ip => s + ip.2.price * ip.1.quantity) c =
      c + (L.map (fun ip => ip.1.quantity * ip.2.price)).sum := by
  induction L generalizing c with
  | nil => simp
  | cons ip t ih =>
    simp only [List.foldl_cons, List.map_cons, List.sum_cons, ih]
    ring

/-- Replacing the `cartItems` table does not affect product lookups. -/
theorem findProduct_update_cartItems (db : DB) (ci : List CartItem) (pid : Nat) :
    findProduct { db with cartItems := ci } pid = findProduct db pid := rfl

/-- Inserting orders and order items does not affect product lookups. -/
theorem findProduct_update_orders (db : DB) (os : List Order)
    (ois : List OrderItem) (n : Nat) (pid : Nat) :
    findProduct { db with orders := os, orderItems := ois, nextOrderId := n } pid =
      findProduct db pid := rfl

/-- Rewriting the `orders` table does not affect product lookups. -/
theorem findProduct_update_only_orders (db : DB) (os : List Order) (pid : Nat) :
    findProduct { db with orders := os } pid = findProduct db pid := rfl

/-- On the success path, `createOrder` returns exactly the transaction
result `checkoutDb` / `checkoutOrder`. -/
theorem createOrder_ok_eq (db : DB) (uid : Nat) (addr pm : String)
    (cart : Cart) (ips : List (CartItem × Product))
    (hc : db.carts.find? (fun c => c.userId == uid) = some cart)
    (hne : cartItemsOf db cart.id ≠ [])
    (hips : attachProducts db (cartItemsOf db cart.id) = some ips)
    (hstock : ∀ ip ∈ ips, ip.1.quantity ≤ ip.2.stock) :
    createOrder db uid addr pm =
      .ok (checkoutDb db uid addr pm cart.id ips, checkoutOrder db uid addr pm ips) := by
  have hempty : (cartItemsOf db cart.id).isEmpty = false := by
    cases h : cartItemsOf db cart.id with
    | nil => exact absurd h hne
    | cons a t => rfl
  have hviol : firstStockViolation ips = none :=
    (firstStockViolation_eq_none ips).mpr hstock
  unfold createOrder
  rw [hc]
  simp only [hempty, Bool.false_eq_true, if_false, hips, hviol]
  rfl

/-- The items of the order written by checkout, provided no pre-existing
order item already carries the fresh order id. -/
theorem orderItemsOf_checkoutDb (db : DB) (uid : Nat) (addr pm : String)
    (cartId : Nat) (ips : List (CartItem × Product))
    (hfresh : ∀ it ∈ db.orderItems, it.orderId ≠ db.nextOrderId) :
    orderItemsOf (checkoutDb db uid addr pm cartId ips) db.nextOrderId =
      ips.map (fun ip =>
        { orderId := db.nextOrderId, productId := ip.1.productId,
          quantity := ip.1.quantity, price := ip.2.price }) := by
  unfold orderItemsOf checkoutDb
  dsimp only
  rw [(foldl_adjustStock_frame (fun ip => ip.1.productId)
        (fun ip => -ip.1.quantity) ips _).2.2.2.2.1]
  dsimp only
  rw [List.filter_append,
      List.filter_eq_nil_iff.mpr (fun it hit => by simpa using hfresh it hit),
      List.nil_append]
  exact List.filter_eq_self.mpr (fun it hit => by
    rcases List.mem_map.mp hit with ⟨ip, _, rfl⟩
    simp)

/-- A successful `updateProduct` touches only the `products` table. -/
theorem updateProduct_frame (db : DB) (pid : Nat) (u : ProductUpdate)
    (db2 : DB) (p2 : Product) (h : updateProduct db pid u = .ok (db2, p2)) :
    db2.categories = db.categories ∧ db2.carts = db.carts ∧
    db2.cartItems = db.cartItems ∧ db2.orders = db.orders ∧
    db2.orderItems = db.orderItems := by
  unfold updateProduct at h
  cases hf : findProduct db pid with
  | none => rw [hf] at h; exact Except.noConfusion h
  | some p =>
    rw [hf] at h
    simp only [Except.ok.injEq, Prod.mk.injEq] at h
    obtain ⟨h1, _⟩ := h
    subst h1
    exact ⟨rfl, rfl, rfl, rfl, rfl⟩

/-! ## Claim theorems -/

/-- C1: for every user whose cart exists and contains at least one item, with
every item's quantity at most the referenced product's current stock,
checkout succeeds: it creates exactly one PENDING/PENDING order, one
`OrderItem` per cart item carrying `(productId, quantity, price-at-read-time)`,
a total equal to Σ quantity × price over the cart, decrements each referenced
product's stock by exactly the ordered quantity (the cart holding at most one
item per product), and deletes all of the cart's items while the cart row
persists. -/
theorem createOrder_success_spec (db : DB) (uid : Nat) (addr pm : String)
    (cart : Cart) (ips : List (CartItem × Product))
    (hc : db.carts.find? (fun c => c.userId == uid) = some cart)
    (hne : cartItemsOf db cart.id ≠ [])
    (hips : attachProducts db (cartItemsOf db cart.id) = some ips)
    (hstock : ∀ ip ∈ ips, ip.1.quantity ≤ ip.2.stock) :
    ∃ db3 order,
      createOrder db uid addr pm = .ok (db3, order) ∧
      order.status = .PENDING ∧
      order.paymentStatus = .PENDING ∧
      order.userId = uid ∧
      order.total = (ips.map (fun ip => ip.1.quantity * ip.2.price)).sum ∧
      db3.orders = db.orders ++ [order] ∧
      db3.orderItems = db.orderItems ++ ips.map (fun ip =>
        { orderId := order.id, productId := ip.1.productId,
          quantity := ip.1.quantity, price := ip.2.price }) ∧
      db3.carts = db.carts ∧
      db3.cartItems = db.cartItems.filter (fun i => !(i.cartId == cart.id)) ∧
      (ips.Pairwise (fun a b => a.1.productId ≠ b.1.productId) →
        ∀ ip ∈ ips, findProduct db3 ip.1.productId =
          some { ip.2 with stock := ip.2.stock - ip.1.quantity }) ∧
      (∀ pid, (∀ ip ∈ ips, ip.1.productId ≠ pid) →
        findProduct db3 pid = findProduct db pid) := by
  have hempty : (cartItemsOf db cart.id).isEmpty = false := by
    cases h : cartItemsOf db cart.id with
    | nil => exact absurd h hne
    | cons a t => rfl
  have hviol : firstStockViolation ips = none :=
    (firstStockViolation_eq_none ips).mpr hstock
  unfold createOrder
  rw [hc]
  simp only [hempty, Bool.false_eq_true, if_false, hips, hviol]
  refine ⟨_, _, rfl, rfl, rfl, rfl, ?_, ?_, ?_, ?_, ?_, ?_, ?_⟩
  · exact foldl_total ips 0 |>.trans (zero_add _)
  · exact ((foldl_adjustStock_frame (fun ip => ip.1.productId)
      (fun ip => -ip.1.quantity) ips _).2.2.2.1)
  · exact ((foldl_adjustStock_frame (fun ip => ip.1.productId)
      (fun ip => -ip.1.quantity) ips _).2.2.2.2.1)
  · exact ((foldl_adjustStock_frame (fun ip => ip.1.productId)
      (fun ip => -ip.1.quantity) ips _).2.1)
  · rw [((foldl_adjustStock_frame (fun ip => ip.1.productId)
      (fun ip => -ip.1.quantity) ips _).2.2.1)]
  · intro hdist ip hip
    have hfind : findProduct db ip.1.productId = some ip.2 :=
      (attachProducts_mem db _ ips hips ip hip).2
    rw [findProduct_update_cartItems,
        foldl_adjustStock_find_mem (fun ip => ip.1.productId)
          (fun ip => -ip.1.quantity) ips _ hdist ip hip,
        findProduct_update_orders, hfind]
    simp [Int.sub_eq_add_neg]
  · intro pid hpid
    rw [findProduct_update_cartItems,
        foldl_adjustStock_find_ne (fun ip => ip.1.productId)
          (fun ip => -ip.1.quantity) ips _ pid hpid,
        findProduct_update_orders]

/-- C2: checkout fails with a 400 error — and leaves the store exactly as it
was, the `DB` carried by the error being the input store — when the cart is
absent, when it is empty, or when some item's quantity exceeds its product's
stock; in the last case the error message names the first offending product,
its available stock, and the requested quantity. -/
theorem createOrder_failure_spec (db : DB) (uid : Nat) (addr pm : String) :
    (db.carts.find? (fun c => c.userId == uid) = none →
      createOrder db uid addr pm = .error (⟨400, emptyCartMsg⟩, db)) ∧
    (∀ cart, db.carts.find? (fun c => c.userId == uid) = some cart →
      cartItemsOf db cart.id = [] →
      createOrder db uid addr pm = .error (⟨400, emptyCartMsg⟩, db)) ∧
    (∀ cart ips i p, db.carts.find? (fun c => c.userId == uid) = some cart →
      attachProducts db (cartItemsOf db cart.id) = some ips →
      firstStockViolation ips = some (i, p) →
      p.stock < i.quantity ∧
      findProduct db i.productId = some p ∧
      createOrder db uid addr pm = .error (⟨400, insufficientStockMsg p i⟩, db)) := by
  refine ⟨?_, ?_, ?_⟩
  · intro hc
    unfold createOrder
    rw [hc]
    rfl
  · intro cart hc hnil
    unfold createOrder
    rw [hc]
    simp only [hnil, List.isEmpty_nil, if_true]
    rfl
  · intro cart ips i p hc hips hviol
    obtain ⟨hmem, hlt⟩ := firstStockViolation_some ips (i, p) hviol
    have hfind : findProduct db i.productId = some p :=
      (attachProducts_mem db _ ips hips (i, p) hmem).2
    refine ⟨hlt, hfind, ?_⟩
    have hempty : (cartItemsOf db cart.id).isEmpty = false := by
      cases h : cartItemsOf db cart.id with
      | nil =>
        rw [h] at hips
        have := attachProducts_nil db ips hips
        subst this
        cases hmem
      | cons a t => rfl
    unfold createOrder
    rw [hc]
    simp only [hempty, Bool.false_eq_true, if_false, hips, hviol]
    rfl

/-- C3 counterexample: not every step of the checkout algorithm executes
inside the store transaction — the cart load, the stock validation and the
total computation run before `prisma.$transaction` opens. -/
theorem checkout_steps_not_all_in_transaction :
    ¬ ∀ s, checkoutStepInTransaction s = true := by
  intro h
  exact absurd (h .loadCart) (by decide)

/-- C3 amended: the three mutating steps of checkout — order creation, stock
decrement and cart clearing — execute inside the single store transaction,
while the cart load, the stock validation and the total computation execute
before it; every failing checkout throws before any mutation, so the store
carried by the error is exactly the input store. -/
theorem checkout_transaction_spec (db : DB) (uid : Nat) (addr pm : String)
    (e : AppError) (db' : DB)
    (h : createOrder db uid addr pm = .error (e, db')) :
    db' = db ∧
    checkoutStepInTransaction .createOrderRow = true ∧
    checkoutStepInTransaction .decrementStock = true ∧
    checkoutStepInTransaction .clearCartItems = true ∧
    checkoutStepInTransaction .loadCart = false ∧
    checkoutStepInTransaction .validateStock = false ∧
    checkoutStepInTransaction .computeTotal = false := by
  refine ⟨?_, rfl, rfl, rfl, rfl, rfl, rfl⟩
  unfold createOrder at h
  dsimp only at h
  repeat' split at h
  all_goals first
    | (simp only [Except.error.injEq, Prod.mk.injEq] at h
       exact h.2.symm)
    | exact Except.noConfusion h

/-- C4: cancelling an owned order whose status is PENDING or PROCESSING sets
the status to CANCELLED and increments each item's product stock by exactly
that item's quantity (the order holding at most one item per product);
cancelling a SHIPPED or DELIVERED order is rejected, cancelling an already
CANCELLED order is rejected with its own error, and every rejection leaves
the store exactly as it was. -/
theorem cancelOrder_spec (db : DB) (uid oid : Nat) (order : Order)
    (hfind : db.orders.find? (fun o => o.id == oid) = some order)
    (hown : order.userId = uid) :
    ((order.status = .PENDING ∨ order.status = .PROCESSING) →
      ∃ db2, cancelOrder db uid oid = .ok (db2, { order with status := .CANCELLED }) ∧
        db2.orders = db.orders.map (fun o =>
          if o.id == oid then { o with status := .CANCELLED } else o) ∧
        db2.carts = db.carts ∧
        db2.cartItems = db.cartItems ∧
        db2.orderItems = db.orderItems ∧
        ((orderItemsOf db oid).Pairwise (fun a b => a.productId ≠ b.productId) →
          ∀ it ∈ orderItemsOf db oid,
            findProduct db2 it.productId =
              (findProduct db it.productId).map
                (fun p => { p with stock := p.stock + it.quantity })) ∧
        (∀ pid, (∀ it ∈ orderItemsOf db oid, it.productId ≠ pid) →
          findProduct db2 pid = findProduct db pid)) ∧
    ((order.status = .SHIPPED ∨ order.status = .DELIVERED) →
      cancelOrder db uid oid =
        .error (⟨400, "Cannot cancel order that is already shipped or delivered"⟩, db)) ∧
    (order.status = .CANCELLED →
      cancelOrder db uid oid = .error (⟨400, "Order is already cancelled"⟩, db)) := by
  have hbown : (order.userId != uid) = false := by simp [hown]
  refine ⟨?_, ?_, ?_⟩
  · intro hstat
    have h1 : (order.status == OrderStatus.SHIPPED || order.status == OrderStatus.DELIVERED) = false := by
      rcases hstat with h | h <;> rw [h] <;> rfl
    have h2 : (order.status == OrderStatus.CANCELLED) = false := by
      rcases hstat with h | h <;> rw [h] <;> rfl
    unfold cancelOrder
    rw [hfind]
    simp only [hbown, Bool.false_eq_true, if_false, h1, h2]
    refine ⟨_, rfl, ?_, ?_, ?_, ?_, ?_, ?_⟩
    · exact (foldl_adjustStock_frame (fun it => it.productId)
        (fun it => it.quantity) (orderItemsOf db oid) _).2.2.2.1
    · exact (foldl_adjustStock_frame (fun it => it.productId)
        (fun it => it.quantity) (orderItemsOf db oid) _).2.1
    · exact (foldl_adjustStock_frame (fun it => it.productId)
        (fun it => it.quantity) (orderItemsOf db oid) _).2.2.1
    · exact (foldl_adjustStock_frame (fun it => it.productId)
        (fun it => it.quantity) (orderItemsOf db oid) _).2.2.2.2.1
    · intro hdist it hit
      rw [foldl_adjustStock_find_mem (fun it => it.productId)
            (fun it => it.quantity) (orderItemsOf db oid) _ hdist it hit,
          findProduct_update_only_orders]
    · intro pid hpid
      rw [foldl_adjustStock_find_ne (fun it => it.productId)
            (fun it => it.quantity) (orderItemsOf db oid) _ pid hpid,
          findProduct_update_only_orders]
  · intro hstat
    have h1 : (order.status == OrderStatus.SHIPPED || order.status == OrderStatus.DELIVERED) = true := by
      rcases hstat with h | h <;> rw [h] <;> rfl
    unfold cancelOrder
    rw [hfind]
    simp only [hbown, Bool.false_eq_true, if_false, h1, if_true]
    rfl
  · intro hstat
    have h1 : (order.status == OrderStatus.SHIPPED || order.status == OrderStatus.DELIVERED) = false := by
      rw [hstat]; rfl
    have h2 : (order.status == OrderStatus.CANCELLED) = true := by
      rw [hstat]; rfl
    unfold cancelOrder
    rw [hfind]
    simp only [hbown, Bool.false_eq_true, if_false, h1, h2, if_true]
    rfl

/-- A store for exercising the ownership checks: user 1 owns order 1, cart 1
and cart item 10; user 2 owns nothing. -/
def ownershipDb : DB :=
  { products := [⟨1, "Widget", 10, 5, none, "", []⟩],
    categories := [],
    carts := [⟨1, 1⟩],
    cartItems := [⟨10, 1, 1, 2⟩],
    orders := [⟨1, 1, 20, "1 First Street", "CARD", .PENDING, .PENDING⟩],
    orderItems := [⟨1, 1, 2, 10⟩],
    nextCartId := 2, nextCartItemId := 11, nextOrderId := 2 }

/-- C5 counterexample: acting on another user's resource is rejected with a
`ValidationError` carrying status code 400, not with a Forbidden 403 — user 2
cancelling user 1's order and updating user 1's cart item both produce
status 400. -/
theorem ownership_error_is_400_not_403 :
    cancelOrder ownershipDb 2 1 =
      .error (⟨400, "You can only cancel your own orders"⟩, ownershipDb) ∧
    updateCartItem ownershipDb 2 10 3 =
      .error (⟨400, "This cart item does not belong to you"⟩, ownershipDb) ∧
    (400 : Nat) ≠ 403 :=
  ⟨rfl, rfl, by decide⟩

/-- C5 amended: every request acting on a resource the requesting user does
not own — cancelling another user's order, or updating or removing a cart
item whose cart belongs to another user — fails with a 400 `ValidationError`
(the code uses `ValidationError`, not `ForbiddenError`/403) and leaves the
store exactly as it was. -/
theorem ownership_rejection_spec (db : DB) (uid oid itemId : Nat) (q : Int) :
    (∀ order, db.orders.find? (fun o => o.id == oid) = some order →
      order.userId ≠ uid →
      cancelOrder db uid oid =
        .error (⟨400, "You can only cancel your own orders"⟩, db)) ∧
    (∀ item cart, db.cartItems.find? (fun i => i.id == itemId) = some item →
      db.carts.find? (fun c => c.id == item.cartId) = some cart →
      cart.userId ≠ uid →
      updateCartItem db uid itemId q =
        .error (⟨400, "This cart item does not belong to you"⟩, db)) ∧
    (∀ item cart, db.cartItems.find? (fun i => i.id == itemId) = some item →
      db.carts.find? (fun c => c.id == item.cartId) = some cart →
      cart.userId ≠ uid →
      removeFromCart db uid itemId =
        .error (⟨400, "This cart item does not belong to you"⟩, db)) := by
  refine ⟨?_, ?_, ?_⟩
  · intro order hfind hne
    have hb : (order.userId != uid) = true := by simpa using hne
    unfold cancelOrder
    rw [hfind]
    simp only [hb, if_true]
    rfl
  · intro item cart hitem hcart hne
    have hb : (cart.userId != uid) = true := by simpa using hne
    unfold updateCartItem
    rw [hitem]
    dsimp only
    rw [hcart]
    simp only [hb, if_true]
    rfl
  · intro item cart hitem hcart hne
    have hb : (cart.userId != uid) = true := by simpa using hne
    unfold removeFromCart
    rw [hitem]
    dsimp only
    rw [hcart]
    simp only [hb, if_true]
    rfl

/-- C5 witness: the amended ownership theorem applied to the concrete store,
removing user 1's cart item as user 2. -/
theorem ownership_rejection_spec_witness :
    removeFromCart ownershipDb 2 10 =
      .error (⟨400, "This cart item does not belong to you"⟩, ownershipDb) :=
  (ownership_rejection_spec ownershipDb 2 1 10 3).2.2 ⟨10, 1, 1, 2⟩ ⟨1, 1⟩
    rfl rfl (by decide)

/-- C6: the `OrderItem.price` values written by checkout are snapshots of the
product prices read at checkout time, and a later `updateProduct` (price
change included) leaves the order's stored items — prices included —
untouched. -/
theorem orderItemPrice_snapshot_spec (db : DB) (uid : Nat) (addr pm : String)
    (cart : Cart) (ips : List (CartItem × Product)) (pid : Nat)
    (u : ProductUpdate) (db1 db2 : DB) (order : Order) (p2 : Product)
    (hc : db.carts.find? (fun c => c.userId == uid) = some cart)
    (hne : cartItemsOf db cart.id ≠ [])
    (hips : attachProducts db (cartItemsOf db cart.id) = some ips)
    (hstock : ∀ ip ∈ ips, ip.1.quantity ≤ ip.2.stock)
    (hfresh : ∀ it ∈ db.orderItems, it.orderId ≠ db.nextOrderId)
    (h1 : createOrder db uid addr pm = .ok (db1, order))
    (h2 : updateProduct db1 pid u = .ok (db2, p2)) :
    orderItemsOf db2 order.id = orderItemsOf db1 order.id ∧
    orderItemsOf db1 order.id = ips.map (fun ip =>
      { orderId := order.id, productId := ip.1.productId,
        quantity := ip.1.quantity, price := ip.2.price }) ∧
    ∀ it ∈ orderItemsOf db1 order.id,
      ∃ p, findProduct db it.productId = some p ∧ it.price = p.price := by
  have hco := createOrder_ok_eq db uid addr pm cart ips hc hne hips hstock
  rw [hco] at h1
  simp only [Except.ok.injEq, Prod.mk.injEq] at h1
  obtain ⟨hdb1, horder⟩ := h1
  subst hdb1
  subst horder
  have hid : (checkoutOrder db uid addr pm ips).id = db.nextOrderId := rfl
  rw [hid]
  have hitems := orderItemsOf_checkoutDb db uid addr pm cart.id ips hfresh
  refine ⟨?_, hitems, ?_⟩
  · unfold orderItemsOf
    rw [(updateProduct_frame _ _ _ _ _ h2).2.2.2.2]
  · intro it hit
    rw [hitems] at hit
    rcases List.mem_map.mp hit with ⟨ip, hip, rfl⟩
    exact ⟨ip.2, (attachProducts_mem db _ ips hips ip hip).2, rfl⟩

/-- A catalog with two products for exercising the price filter. -/
def priceFilterDb : DB :=
  { products := [⟨1, "Laptop", 500, 3, none, "", []⟩, ⟨2, "Mouse", 20, 10, none, "", []⟩],
    categories := [], carts := [], cartItems := [], orders := [], orderItems := [],
    nextCartId := 1, nextCartItemId := 1, nextOrderId := 1 }

/-- C7: `GET /products` with a `minPrice` or `maxPrice` query parameter
answers 500, not 200 — the handler writes `where.minPrice.gte` /
`where.maxPrice.gte` on undefined objects (the initialised `where.price`
object is never used), so the request throws a `TypeError` before any
filtering happens; without price parameters the same catalog is served with
status 200. -/
theorem getProducts_price_filter_throws :
    getProducts priceFilterDb ⟨none, some 100, none, none⟩ = (500, []) ∧
    getProducts priceFilterDb ⟨none, none, some 100, none⟩ = (500, []) ∧
    getProducts priceFilterDb ⟨none, none, none, none⟩ =
      (200, priceFilterDb.products) :=
  ⟨rfl, rfl, rfl⟩

/-- Categories 1 (referenced by one product) and 2 (unreferenced). -/
def categoryDb : DB :=
  { products := [⟨1, "Phone", 300, 5, some 1, "", []⟩],
    categories := [⟨1, "Electronics"⟩, ⟨2, "Empty"⟩],
    carts := [], cartItems := [], orders := [], orderItems := [],
    nextCartId := 1, nextCartItemId := 1, nextOrderId := 1 }

/-- C8 counterexample: deleting a category that a product still references is
rejected with status 400 (Bad Request), not with a 409 Conflict. -/
theorem deleteCategory_rejection_is_400_not_409 :
    deleteCategory categoryDb 1 =
      .error (⟨400, "Cannot delete category with 1 products. Remove products first."⟩,
              categoryDb) ∧
    (400 : Nat) ≠ 409 :=
  ⟨rfl, by decide⟩

/-- C8 amended: deleting an existing category still referenced by at least
one product fails with a 400 error naming the product count, and the store —
categories and products included — is exactly as it was; deletion succeeds
only when no product references the category, and then removes only the
category row. -/
theorem deleteCategory_spec (db : DB) (cid : Nat) :
    (∀ cat, db.categories.find? (fun c => c.id == cid) = some cat →
      (db.products.filter (fun p => p.categoryId == some cid)).length > 0 →
      deleteCategory db cid = .error
        (⟨400, "Cannot delete category with " ++
            toString (db.products.filter (fun p => p.categoryId == some cid)).length ++
            " products. Remove products first."⟩, db)) ∧
    (∀ cat, db.categories.find? (fun c => c.id == cid) = some cat →
      (db.products.filter (fun p => p.categoryId == some cid)).length = 0 →
      deleteCategory db cid =
        .ok { db with categories := db.categories.filter (fun c => !(c.id == cid)) }) ∧
    (∀ db2, deleteCategory db cid = .ok db2 →
      (db.products.filter (fun p => p.categoryId == some cid)).length = 0 ∧
      db2.products = db.products ∧ db2.carts = db.carts ∧
      db2.cartItems = db.cartItems ∧ db2.orders = db.orders ∧
      db2.orderItems = db.orderItems) := by
  refine ⟨?_, ?_, ?_⟩
  · intro cat hfind hpos
    unfold deleteCategory
    rw [hfind]
    dsimp only
    rw [if_pos hpos]
  · intro cat hfind hzero
    unfold deleteCategory
    rw [hfind]
    dsimp only
    rw [if_neg (by rw [hzero]; exact lt_irrefl 0)]
  · intro db2 h
    unfold deleteCategory at h
    cases hfind : db.categories.find? (fun c => c.id == cid) with
    | none => rw [hfind] at h; exact Except.noConfusion h
    | some cat =>
      rw [hfind] at h
      dsimp only at h
      by_cases hpos : (db.products.filter (fun p => p.categoryId == some cid)).length > 0
      · rw [if_pos hpos] at h; exact Except.noConfusion h
      · rw [if_neg hpos] at h
        simp only [Except.ok.injEq] at h
        subst h
        exact ⟨Nat.eq_zero_of_not_pos hpos, rfl, rfl, rfl, rfl, rfl⟩

/-- C8 witness: the amended theorem applied to the concrete catalog —
deleting the unreferenced category 2 succeeds and removes only that row. -/
theorem deleteCategory_spec_witness :
    deleteCategory categoryDb 2 =
      .ok { categoryDb with
            categories := categoryDb.categories.filter (fun c => !(c.id == 2)) } :=
  (deleteCategory_spec categoryDb 2).2.1 ⟨2, "Empty"⟩ rfl rfl

/-- An order book for the admin path: user 1 owns PENDING order 1 over
product 1. -/
def adminDb : DB :=
  { products := [⟨1, "Desk", 120, 4, none, "", []⟩],
    categories := [],
    carts := [], cartItems := [],
    orders := [⟨1, 1, 240, "9 Elm Street", "CARD", .PENDING, .PENDING⟩],
    orderItems := [⟨1, 1, 2, 120⟩],
    nextCartId := 1, nextCartItemId := 1, nextOrderId := 2 }

/-- C10: the admin `updateOrderStatus` writes only the `status` field of the
addressed order: every other table — products and their stock included — and
every other order row is unchanged, for every status value, CANCELLED
included (stock restoration happens only in the user-facing `cancelOrder`). -/
theorem updateOrderStatus_spec (db : DB) (oid : Nat) (st : OrderStatus)
    (order : Order)
    (hfind : db.orders.find? (fun o => o.id == oid) = some order) :
    ∃ db2, updateOrderStatus db oid st = .ok (db2, { order with status := st }) ∧
      db2.products = db.products ∧
      db2.categories = db.categories ∧
      db2.carts = db.carts ∧
      db2.cartItems = db.cartItems ∧
      db2.orderItems = db.orderItems ∧
      db2.orders = db.orders.map (fun o =>
        if o.id == oid then { o with status := st } else o) ∧
      (∀ o ∈ db.orders, o.id ≠ oid → o ∈ db2.orders) ∧
      (∀ pid, findProduct db2 pid = findProduct db pid) := by
  unfold updateOrderStatus
  rw [hfind]
  dsimp only
  refine ⟨_, rfl, rfl, rfl, rfl, rfl, rfl, rfl, ?_, fun pid => rfl⟩
  intro o ho hne
  exact List.mem_map.mpr ⟨o, ho, by simp [hne]⟩

/-- C10 witness: setting order 1 to CANCELLED through the admin path leaves
the product table (stock 4) untouched. -/
theorem updateOrderStatus_spec_witness :
    ∃ db2, updateOrderStatus adminDb 1 .CANCELLED =
      .ok (db2, ⟨1, 1, 240, "9 Elm Street", "CARD", .CANCELLED, .PENDING⟩) ∧
      db2.products = adminDb.products := by
  obtain ⟨db2, h1, h2, -⟩ := updateOrderStatus_spec adminDb 1 .CANCELLED
    ⟨1, 1, 240, "9 Elm Street", "CARD", .PENDING, .PENDING⟩ rfl
  exact ⟨db2, h1, h2⟩

/-- The cart-item invariant only reads the `cartItems` table and its id
counter. -/
theorem cartInvariant_of_tables (db db' : DB)
    (h1 : db'.cartItems = db.cartItems)
    (h2 : db'.nextCartItemId = db.nextCartItemId)
    (inv : CartInvariant db) : CartInvariant db' := by
  constructor
  · rw [h1, h2]; exact inv.idsBounded
  · rw [h1]; exact inv.idsDistinct
  · rw [h1]; exact inv.keyUnique

/-- An in-place quantity write (the `prisma.cartItem.update` of the merge and
update paths) preserves the cart-item invariant. -/
theorem cartInvariant_map_quantity (db : DB) (tid : Nat) (q : Int)
    (inv : CartInvariant db) :
    CartInvariant { db with cartItems := db.cartItems.map (fun i =>
      if i.id == tid then { i with quantity := q } else i) } := by
  have hid : ∀ i : CartItem,
      (if i.id == tid then { i with quantity := q } else i).id = i.id := by
    intro i; by_cases h : (i.id == tid) = true <;> simp [h]
  have hcart : ∀ i : CartItem,
      (if i.id == tid then { i with quantity := q } else i).cartId = i.cartId := by
    intro i; by_cases h : (i.id == tid) = true <;> simp [h]
  have hpid : ∀ i : CartItem,
      (if i.id == tid then { i with quantity := q } else i).productId = i.productId := by
    intro i; by_cases h : (i.id == tid) = true <;> simp [h]
  constructor
  · intro j hj
    rcases List.mem_map.mp hj with ⟨i, hi, rfl⟩
    show _ < db.nextCartItemId
    rw [hid i]
    exact inv.idsBounded i hi
  · rw [List.pairwise_map]
    exact inv.idsDistinct.imp (fun {a b} h => by rw [hid a, hid b]; exact h)
  · rw [List.pairwise_map]
    exact inv.keyUnique.imp (fun {a b} h => by
      rw [hcart a, hcart b, hpid a, hpid b]; exact h)

/-- Deleting cart items (the `delete`/`deleteMany` paths) preserves the
cart-item invariant. -/
theorem cartInvariant_filter (db : DB) (f : CartItem → Bool)
    (inv : CartInvariant db) :
    CartInvariant { db with cartItems := db.cartItems.filter f } := by
  constructor
  · intro i hi
    exact inv.idsBounded i (List.mem_of_mem_filter hi)
  · exact inv.idsDistinct.sublist (List.filter_sublist _)
  · exact inv.keyUnique.sublist (List.filter_sublist _)

/-- Inserting a fresh cart item for a `(cartId, productId)` key that has no
row yet (the insert path of `addToCart`) preserves the cart-item
invariant. -/
theorem cartInvariant_append_new (db : DB) (c pid : Nat) (q : Int)
    (hnone : db.cartItems.find?
      (fun i => i.cartId == c && i.productId == pid) = none)
    (inv : CartInvariant db) :
    CartInvariant { db with
      cartItems := db.cartItems ++ [⟨db.nextCartItemId, c, pid, q⟩],
      nextCartItemId := db.nextCartItemId + 1 } := by
  have hnotin := List.find?_eq_none.mp hnone
  constructor
  · intro i hi
    rcases List.mem_append.mp hi with h | h
    · exact Nat.lt_succ_of_lt (inv.idsBounded i h)
    · rw [List.mem_singleton.mp h]
      exact Nat.lt_succ_self _
  · rw [List.pairwise_append]
    refine ⟨inv.idsDistinct, List.pairwise_singleton _ _, ?_⟩
    intro a ha b hb
    rw [List.mem_singleton.mp hb]
    exact Nat.ne_of_lt (inv.idsBounded a ha)
  · rw [List.pairwise_append]
    refine ⟨inv.keyUnique, List.pairwise_singleton _ _, ?_⟩
    intro a ha b hb
    rw [List.mem_singleton.mp hb]
    have hng := hnotin a ha
    by_cases hcc : a.cartId = c
    · right
      intro hp
      exact hng (by simp [hcc, hp])
    · left
      exact hcc

/-- Every single cart request preserves the cart-item invariant, whether it
succeeds or throws. -/
theorem cartOp_preserves_invariant (db : DB) (op : CartOp)
    (inv : CartInvariant db) : CartInvariant (cartOpResult db op) := by
  cases op with
  | add uid pid q =>
    show CartInvariant (match addToCart db uid pid q with
      | .ok (d, _) => d
      | .error (_, d) => d)
    unfold addToCart
    cases hp : findProduct db pid with
    | none => exact inv
    | some product =>
      dsimp only
      by_cases hq : product.stock < q
      · rw [if_pos hq]
        exact inv
      · rw [if_neg hq]
        cases hfc : db.carts.find? (fun c => c.userId == uid) with
        | some cart =>
          dsimp only
          cases hfi : db.cartItems.find?
              (fun i => i.cartId == cart.id && i.productId == pid) with
          | some existing =>
            dsimp only
            by_cases hover : product.stock < existing.quantity + q
            · rw [if_pos hover]
              exact inv
            · rw [if_neg hover]
              exact cartInvariant_map_quantity db existing.id
                (existing.quantity + q) inv
          | none =>
            dsimp only
            exact cartInvariant_append_new db cart.id pid q hfi inv
        | none =>
          dsimp only
          cases hfi : db.cartItems.find?
              (fun i => i.cartId == db.nextCartId && i.productId == pid) with
          | some existing =>
            dsimp only
            by_cases hover : product.stock < existing.quantity + q
            · rw [if_pos hover]
              exact cartInvariant_of_tables db _ rfl rfl inv
            · rw [if_neg hover]
              exact cartInvariant_map_quantity
                { db with carts := db.carts ++ [⟨db.nextCartId, uid⟩],
                          nextCartId := db.nextCartId + 1 }
                existing.id (existing.quantity + q)
                (cartInvariant_of_tables db _ rfl rfl inv)
          | none =>
            dsimp only
            exact cartInvariant_append_new
              { db with carts := db.carts ++ [⟨db.nextCartId, uid⟩],
                        nextCartId := db.nextCartId + 1 }
              db.nextCartId pid q hfi
              (cartInvariant_of_tables db _ rfl rfl inv)
  | update uid itemId q =>
    show CartInvariant (match updateCartItem db uid itemId q with
      | .ok (d, _) => d
      | .error (_, d) => d)
    unfold updateCartItem
    cases hfi : db.cartItems.find? (fun i => i.id == itemId) with
    | none => exact inv
    | some item =>
      dsimp only
      cases hfc : db.carts.find? (fun c => c.id == item.cartId) with
      | none => exact inv
      | some cart =>
        dsimp only
        by_cases hown : (cart.userId != uid) = true
        · rw [if_pos hown]
          exact inv
        · rw [if_neg hown]
          cases hp : findProduct db item.productId with
          | none => exact inv
          | some product =>
            dsimp only
            by_cases hq : product.stock < q
            · rw [if_pos hq]
              exact inv
            · rw [if_neg hq]
              exact cartInvariant_map_quantity db itemId q inv
  | remove uid itemId =>
    show CartInvariant (match removeFromCart db uid itemId with
      | .ok d => d
      | .error (_, d) => d)
    unfold removeFromCart
    cases hfi : db.cartItems.find? (fun i => i.id == itemId) with
    | none => exact inv
    | some item =>
      dsimp only
      cases hfc : db.carts.find? (fun c => c.id == item.cartId) with
      | none => exact inv
      | some cart =>
        dsimp only
        by_cases hown : (cart.userId != uid) = true
        · rw [if_pos hown]
          exact inv
        · rw [if_neg hown]
          exact cartInvariant_filter db _ inv
  | clear uid =>
    show CartInvariant (match clearCart db uid with
      | .ok d => d
      | .error (_, d) => d)
    unfold clearCart
    cases hfc : db.carts.find? (fun c => c.userId == uid) with
    | none => exact inv
    | some cart =>
      dsimp only
      exact cartInvariant_filter db _ inv

/-- Every sequence of cart requests preserves the cart-item invariant. -/
theorem cartOps_preserve_invariant (db : DB) (ops : List CartOp)
    (inv : CartInvariant db) : CartInvariant (applyCartOps db ops) := by
  induction ops generalizing db with
  | nil => exact inv
  | cons op t ih => exact ih _ (cartOp_preserves_invariant db op inv)

/-- C9: `addToCart` on an existing `(cartId, productId)` row merges the
quantities and re-validates the combined quantity against the product's
current stock, failing with the 400 insufficient-stock error when it exceeds
it; on a missing row it inserts a fresh row (stock already validated); and
every sequence of cart requests preserves the invariant that each cart holds
at most one item row per product. -/
theorem addToCart_spec (db : DB) (uid pid : Nat) (q : Int)
    (product : Product) (cart : Cart)
    (hp : findProduct db pid = some product)
    (hc : db.carts.find? (fun c => c.userId == uid) = some cart)
    (hq : ¬ product.stock < q) :
    (∀ existing, db.cartItems.find?
        (fun i => i.cartId == cart.id && i.productId == pid) = some existing →
      (product.stock < existing.quantity + q →
        addToCart db uid pid q = .error
          (⟨400, "Cannot add " ++ toString q ++ " more. Only " ++
              toString (product.stock - existing.quantity) ++ " items available"⟩,
           db)) ∧
      (¬ product.stock < existing.quantity + q →
        addToCart db uid pid q = .ok
          ({ db with cartItems := db.cartItems.map (fun i =>
              if i.id == existing.id then
                { i with quantity := existing.quantity + q } else i) },
           { existing with quantity := existing.quantity + q }))) ∧
    (db.cartItems.find?
        (fun i => i.cartId == cart.id && i.productId == pid) = none →
      addToCart db uid pid q = .ok
        ({ db with
            cartItems := db.cartItems ++ [⟨db.nextCartItemId, cart.id, pid, q⟩],
            nextCartItemId := db.nextCartItemId + 1 },
         ⟨db.nextCartItemId, cart.id, pid, q⟩)) ∧
    (∀ ops, CartInvariant db → CartInvariant (applyCartOps db ops)) := by
  refine ⟨?_, ?_, fun ops inv => cartOps_preserve_invariant db ops inv⟩
  · intro existing hex
    constructor
    · intro hover
      unfold addToCart
      rw [hp]
      dsimp only
      rw [if_neg hq, hc]
      dsimp only
      rw [hex]
      dsimp only
      rw [if_pos hover]
      rfl
    · intro hover
      unfold addToCart
      rw [hp]
      dsimp only
      rw [if_neg hq, hc]
      dsimp only
      rw [hex]
      dsimp only
      rw [if_neg hover]
  · intro hnone
    unfold addToCart
    rw [hp]
    dsimp only
    rw [if_neg hq, hc]
    dsimp only
    rw [hnone]

/-- A cart for the merge path: product 1 has stock 10 and price 2, user 1's
cart already holds 4 of it in item 5. -/
def mergeDb : DB :=
  { products := [⟨1, "Pen", 2, 10, none, "", []⟩],
    categories := [],
    carts := [⟨1, 1⟩],
    cartItems := [⟨5, 1, 1, 4⟩],
    orders := [], orderItems := [],
    nextCartId := 2, nextCartItemId := 6, nextOrderId := 1 }

/-- C9 witness: adding 3 more of product 1 merges into item 5 (quantity 7),
and the one-row-per-product invariant survives the request. -/
theorem addToCart_spec_witness :
    addToCart mergeDb 1 1 3 = .ok
      ({ mergeDb with cartItems := mergeDb.cartItems.map (fun i =>
          if i.id == 5 then { i with quantity := 7 } else i) },
       ⟨5, 1, 1, 7⟩) ∧
    CartInvariant (applyCartOps mergeDb [.add 1 1 3]) := by
  have h := addToCart_spec mergeDb 1 1 3 ⟨1, "Pen", 2, 10, none, "", []⟩ ⟨1, 1⟩
    rfl rfl (by decide)
  refine ⟨?_, ?_⟩
  · exact (h.1 ⟨5, 1, 1, 4⟩ rfl).2 (by decide)
  · exact h.2.2 [.add 1 1 3] ⟨by decide, by decide, by decide⟩

/-- The worked example of the specification: product A, stock 5, price 10;
user 1's cart holds 2 of it. -/
def shopDb : DB :=
  { products := [⟨1, "A", 10, 5, none, "", []⟩],
    categories := [],
    carts := [⟨1, 1⟩],
    cartItems := [⟨1, 1, 1, 2⟩],
    orders := [], orderItems := [],
    nextCartId := 2, nextCartItemId := 2, nextOrderId := 1 }

/-- C1 witness: checking the cart out yields a PENDING order with total 20,
leaves product A with stock 3, and empties the cart. -/
theorem createOrder_success_spec_witness :
    ∃ db3 order, createOrder shopDb 1 "742 Evergreen Terrace" "CARD" = .ok (db3, order) ∧
      order.total = 20 ∧
      order.status = .PENDING ∧
      findProduct db3 1 = some ⟨1, "A", 10, 3, none, "", []⟩ ∧
      db3.cartItems = [] := by
  obtain ⟨db3, order, h1, h2, _, _, h5, _, _, _, h9, h10, -⟩ :=
    createOrder_success_spec shopDb 1 "742 Evergreen Terrace" "CARD" ⟨1, 1⟩
      [(⟨1, 1, 1, 2⟩, ⟨1, "A", 10, 5, none, "", []⟩)] rfl (by decide) rfl (by decide)
  refine ⟨db3, order, h1, h5.trans (by decide), h2, ?_, h9.trans (by decide)⟩
  have := h10 (by decide) (⟨1, 1, 1, 2⟩, ⟨1, "A", 10, 5, none, "", []⟩) (by decide)
  exact this.trans (by decide)

/-- The negative worked example of the specification: product B has stock 1
but user 1's cart requests 2 of it. -/
def outOfStockDb : DB :=
  { products := [⟨1, "B", 10, 1, none, "", []⟩],
    categories := [],
    carts := [⟨1, 1⟩],
    cartItems := [⟨1, 1, 1, 2⟩],
    orders := [], orderItems := [],
    nextCartId := 2, nextCartItemId := 2, nextOrderId := 1 }

/-- C2 witness: checkout of the over-subscribed cart fails with the 400
message naming product B, its stock 1 and the requested 2, and the store is
exactly the input store. -/
theorem createOrder_failure_spec_witness :
    createOrder outOfStockDb 1 "12 Station Road" "CARD" =
      .error (⟨400, "B only has 1 items in stock. You tried to order 2."⟩,
              outOfStockDb) := by
  have h := (createOrder_failure_spec outOfStockDb 1 "12 Station Road" "CARD").2.2
    ⟨1, 1⟩ [(⟨1, 1, 1, 2⟩, ⟨1, "B", 10, 1, none, "", []⟩)]
    ⟨1, 1, 1, 2⟩ ⟨1, "B", 10, 1, none, "", []⟩ rfl rfl rfl
  exact h.2.2

/-- An empty store. -/
def emptyDb : DB := ⟨[], [], [], [], [], [], 1, 1, 1⟩

/-- C3 witness: a failing checkout (user 7 has no cart) leaves the store
untouched, and the transaction covers exactly the mutating steps. -/
theorem checkout_transaction_spec_witness :
    createOrder emptyDb 7 "10 Downing Street" "CARD" =
      .error (⟨400, emptyCartMsg⟩, emptyDb) ∧
    checkoutStepInTransaction .loadCart = false ∧
    checkoutStepInTransaction .createOrderRow = true := by
  have h := checkout_transaction_spec emptyDb 7 "10 Downing Street" "CARD"
    ⟨400, emptyCartMsg⟩ emptyDb rfl
  exact ⟨rfl, h.2.2.2.2.1, h.2.1⟩

/-- An order book for the user-facing cancellation: user 1 owns PENDING
order 1 of 2 desks; the desk has stock 4. -/
def cancelDb : DB :=
  { products := [⟨1, "Desk", 120, 4, none, "", []⟩],
    categories := [],
    carts := [], cartItems := [],
    orders := [⟨1, 1, 240, "9 Elm Street", "CARD", .PENDING, .PENDING⟩],
    orderItems := [⟨1, 1, 2, 120⟩],
    nextCartId := 1, nextCartItemId := 1, nextOrderId := 2 }

/-- C4 witness: user 1 cancelling the PENDING order sets it to CANCELLED and
restores the desk's stock from 4 to 6. -/
theorem cancelOrder_spec_witness :
    ∃ db2, cancelOrder cancelDb 1 1 =
      .ok (db2, ⟨1, 1, 240, "9 Elm Street", "CARD", .CANCELLED, .PENDING⟩) ∧
      findProduct db2 1 = some ⟨1, "Desk", 120, 6, none, "", []⟩ := by
  obtain ⟨db2, h1, _, _, _, _, h6, -⟩ :=
    (cancelOrder_spec cancelDb 1 1
      ⟨1, 1, 240, "9 Elm Street", "CARD", .PENDING, .PENDING⟩ rfl rfl).1 (Or.inl rfl)
  refine ⟨db2, h1, ?_⟩
  have := h6 (by decide) ⟨1, 1, 2, 120⟩ (by decide)
  exact this.trans (by decide)

/-- `shopDb` after its checkout: stock decremented, order 1 written, cart
emptied. -/
def snapDb1 : DB :=
  { products := [⟨1, "A", 10, 3, none, "", []⟩],
    categories := [],
    carts := [⟨1, 1⟩],
    cartItems := [],
    orders := [⟨1, 1, 20, "5 High Street", "CARD", .PENDING, .PENDING⟩],
    orderItems := [⟨1, 1, 2, 10⟩],
    nextCartId := 2, nextCartItemId := 2, nextOrderId := 2 }

/-- `snapDb1` after product A's price is raised to 99. -/
def snapDb2 : DB :=
  { products := [⟨1, "A", 99, 3, none, "", []⟩],
    categories := [],
    carts := [⟨1, 1⟩],
    cartItems := [],
    orders := [⟨1, 1, 20, "5 High Street", "CARD", .PENDING, .PENDING⟩],
    orderItems := [⟨1, 1, 2, 10⟩],
    nextCartId := 2, nextCartItemId := 2, nextOrderId := 2 }

/-- C6 witness: after checkout at price 10 and a later price update to 99,
order 1 still stores the snapshot price 10. -/
theorem orderItemPrice_snapshot_spec_witness :
    orderItemsOf snapDb2 1 = [⟨1, 1, 2, 10⟩] := by
  have h := orderItemPrice_snapshot_spec shopDb 1 "5 High Street" "CARD" ⟨1, 1⟩
    [(⟨1, 1, 1, 2⟩, ⟨1, "A", 10, 5, none, "", []⟩)] 1
    ⟨none, some 99, none, none, none, none⟩ snapDb1 snapDb2
    ⟨1, 1, 20, "5 High Street", "CARD", .PENDING, .PENDING⟩
    ⟨1, "A", 99, 3, none, "", []⟩
    rfl (by decide) rfl (by decide) (by decide) rfl rfl
  exact (h.1.trans h.2.1).trans (by decide)

end Ecommerce
